import Mathlib

/-
Shallow embedding of the two-factor authentication core of the Meteorology
backend (routers/auth.py, db/repository.py, db/models/models.py,
core/security.py, core/redis.py, core/config.py).

Modelling conventions:
- The relational Credential Store is a list of `User` rows (`Db`); the unique
  constraint on `users.email` is what raises `IntegrityError` on commit, so
  `create_user` fails exactly when a row with the same email already exists.
- The Ephemeral Secret Store (Redis) is a key-value map `String → Option
  String`.  TTL expiry is enforced by the external store's clock and is not
  observed by any property proved here, so `setex` records the value and
  ignores the duration.
- Python `Optional[str]` results of `redis.get` are `Option String`; the
  truthiness test `if not stored_code` is `none` or the empty string.
- `HTTPException(status_code, detail)` is an `Except`-error carrying the
  `(status_code, detail)` pair exactly as written at each raise site.
- `jwt.encode(payload, key, algorithm)` is represented as a record keeping the
  signed payload together with the signing key and algorithm name.
- External collaborators (bcrypt hashing/verification, code generation, SMTP
  delivery) enter as parameters of the endpoint functions.
-/

set_option autoImplicit false

namespace Meteorology

/-! ## Configuration (core/config.py `Settings`, default values) -/

def SECRET_KEY : String := "secret-key"

def ALGORITHM : String := "HS256"

def ACCESS_TOKEN_EXPIRE_MINUTES : Nat := 30

def CODE_EXPIRATION_SECONDS : Nat := 300

/-! ## Credential Store (db/models/models.py `User`, db/repository.py) -/

/-- A row of the `users` table.  Column defaults: `is_active` defaults to
`True`, `is_verified` defaults to `False`. -/
structure User where
  id : Nat
  email : String
  is_active : Bool
  is_verified : Bool
  hashed_password : String
deriving DecidableEq

/-- The `users` table: rows in insertion order, primary key autoincrement. -/
abbrev Db := List User

/-- `UserRepository.get_user_by_email`: `select(User).where(User.email ==
email)` then `.first()`. -/
def get_user_by_email (db : Db) (email : String) : Option User :=
  List.find? (fun u => u.email == email) db

/-- `UserRepository.create_user`: builds `User(email=..., hashed_password=...,
is_active=True)` (so `is_verified` takes its column default `False`), adds it
and commits.  The commit raises `IntegrityError` exactly when the unique
constraint on `email` is violated, i.e. when a row with this email already
exists. -/
def create_user (db : Db) (email : String) (hashed_password : String) :
    Except Unit (User × Db) :=
  if List.any db (fun u => u.email == email) then
    Except.error ()
  else
    let u : User :=
      { id := List.length db + 1
      , email := email
      , is_active := true
      , is_verified := false
      , hashed_password := hashed_password }
    Except.ok (u, List.append db [u])

/-! ## Ephemeral Secret Store (core/redis.py) -/

/-- The key-value contents of the store. -/
abbrev Store := String → Option String

/-- `redis.get key`: the stored value, or absent. -/
def Store.get (st : Store) (k : String) : Option String := st k

/-- `redis.setex key time value`: stores `value` under `key`; the TTL `time`
is enforced by the store's own clock and not modelled further. -/
def Store.setex (st : Store) (k : String) (_time : Nat) (v : String) : Store :=
  fun k' => if k' = k then some v else st k'

/-- `redis.delete key`. -/
def Store.del (st : Store) (k : String) : Store :=
  fun k' => if k' = k then none else st k'

/-- Errors raised by client-side store operations. -/
inductive PyErr where
  /-- `raise RuntimeError(msg)` -/
  | runtimeError (msg : String)
  /-- Attribute access on `None` (the raw `self.client` handle is `None`
  before the connection is established). -/
  | attributeError (msg : String)
deriving DecidableEq

/-- `RedisClient`: wraps an optional raw connection handle (`self.client`,
`None` until `initialize` ran) and the `_is_initialized` flag. -/
structure RedisClient where
  client : Option Store
  isInit : Bool

/-- `RedisClient.__init__`: `self.client = None`, `self._is_initialized =
False` — the not-yet-initialized state. -/
def RedisClient.initial : RedisClient :=
  { client := none, isInit := false }

/-- `RedisClient.setex`: guarded by `_is_initialized`, then delegates to the
raw client. -/
def RedisClient.setex (rc : RedisClient) (key : String) (time : Nat)
    (value : String) : Except PyErr RedisClient :=
  if rc.isInit = false then
    Except.error (PyErr.runtimeError "Redis is not initialized")
  else
    match rc.client with
    | none => Except.error (PyErr.attributeError "NoneType has no attribute setex")
    | some st => Except.ok { rc with client := some (st.setex key time value) }

/-- `RedisClient.get`: guarded by `_is_initialized`, then delegates to the raw
client. -/
def RedisClient.get (rc : RedisClient) (key : String) :
    Except PyErr (Option String) :=
  if rc.isInit = false then
    Except.error (PyErr.runtimeError "Redis is not initialized")
  else
    match rc.client with
    | none => Except.error (PyErr.attributeError "NoneType has no attribute get")
    | some st => Except.ok (st.get key)

/-- `redis_client.client.delete(key)` as invoked by the routers: the wrapper
has no `delete` method, so callers reach through the raw handle; on a client
that was never connected the handle is `None` and the attribute access raises
immediately. -/
def RedisClient.rawDelete (rc : RedisClient) (key : String) :
    Except PyErr RedisClient :=
  match rc.client with
  | none => Except.error (PyErr.attributeError "NoneType has no attribute delete")
  | some st => Except.ok { rc with client := some (st.del key) }

/-! ## Token Issuer (core/security.py `create_access_token`) -/

/-- A JSON value appearing in a JWT payload: the claims used here are the
string `sub` and the datetime `exp` (represented as seconds). -/
inductive JVal where
  | str (s : String)
  | num (n : Nat)
deriving DecidableEq

/-- A signed token: `jwt.encode(to_encode, SECRET_KEY, algorithm=ALGORITHM)`
keeps the payload, the signing key, and the algorithm name. -/
structure Token where
  payload : List (String × JVal)
  key : String
  algorithm : String
deriving DecidableEq

/-- Python `dict.update({k: v})`: replace in place if the key is present,
otherwise append. -/
def dictUpdate (d : List (String × JVal)) (k : String) (v : JVal) :
    List (String × JVal) :=
  if List.any d (fun p => p.1 == k) then
    List.map (fun p => if p.1 == k then (k, v) else p) d
  else
    List.append d [(k, v)]

/-- Payload field lookup (first occurrence). -/
def dictGet (d : List (String × JVal)) (k : String) : Option JVal :=
  Option.map (fun p => p.2) (List.find? (fun p => p.1 == k) d)

/-- `create_access_token(data, expires_delta=None)`: copies `data`, computes
`expire = datetime.now() + (expires_delta or
timedelta(minutes=settings.ACCESS_TOKEN_EXPIRE_MINUTES))` (Python `or`: a
missing or zero delta falls back to the configured lifetime), sets the `exp`
claim and signs.  `now` and durations are in seconds. -/
def create_access_token (data : List (String × JVal)) (now : Nat)
    (expires_delta : Option Nat) : Token :=
  let delta : Nat :=
    match expires_delta with
    | none => ACCESS_TOKEN_EXPIRE_MINUTES * 60
    | some d => if d = 0 then ACCESS_TOKEN_EXPIRE_MINUTES * 60 else d
  { payload := dictUpdate data "exp" (JVal.num (now + delta))
  , key := SECRET_KEY
  , algorithm := ALGORITHM }

/-! ## Verification Orchestrator (routers/auth.py) -/

/-- The success body of `/auth/verify` and `/auth/login/verify_code`. -/
structure SuccessPayload where
  user_id : Nat
  email : String
  access_token : Token
  token_type : String
deriving DecidableEq

/-- Outcome of an endpoint call: the HTTP result together with the resulting
Credential Store and Ephemeral Secret Store states. -/
structure VerifyOutcome where
  result : Except (Nat × String) SuccessPayload
  db : Db
  store : Store

/-- Outcome of `/auth/register` and `/auth/login/send_code` (no rows are
created, only the store changes). -/
structure SendOutcome where
  result : Except (Nat × String) String
  store : Store

/-- `register(user_data)` (`POST /auth/register`): rejects when
`get_user_by_email` finds any row; otherwise stores
`reg_confirm:{email} → code` and `pwd_hash:{email} → hash(password)` with TTL
`CODE_EXPIRATION_SECONDS` and asks the Notifier to deliver the code.  The
generated code, the hash function, and the delivery outcome are parameters. -/
def register (db : Db) (st : Store) (email password : String)
    (code : String) (hashpw : String → String) (email_sent : Bool) :
    SendOutcome :=
  match get_user_by_email db email with
  | some _ =>
    { result := Except.error (400, "Email уже зарегистрирован"), store := st }
  | none =>
    let st1 := st.setex ("reg_confirm:" ++ email) CODE_EXPIRATION_SECONDS code
    let st2 := st1.setex ("pwd_hash:" ++ email) CODE_EXPIRATION_SECONDS
      (hashpw password)
    if email_sent = false then
      { result := Except.error (500, "Не удалось отправить код подтверждения")
      , store := st2 }
    else
      { result := Except.ok "Код подтверждения отправлен на ваш email"
      , store := st2 }

/-- `verify(verification)` (`POST /auth/verify`): checks the stored
confirmation code (`if not stored_code or stored_code != verification.code`),
fetches the pending password hash (`if not password_hash`), creates the user
(surfacing `IntegrityError` as 400), deletes both ephemeral keys and issues
the token. -/
def verify (db : Db) (st : Store) (email code : String) (now : Nat) :
    VerifyOutcome :=
  match st.get ("reg_confirm:" ++ email) with
  | none =>
    { result := Except.error (400, "Неверный код подтверждения")
    , db := db, store := st }
  | some stored_code =>
    if stored_code = "" ∨ stored_code ≠ code then
      { result := Except.error (400, "Неверный код подтверждения")
      , db := db, store := st }
    else
      match st.get ("pwd_hash:" ++ email) with
      | none =>
        { result := Except.error
            (400, "Срок действия кода истек, начните регистрацию заново")
        , db := db, store := st }
      | some password_hash =>
        if password_hash = "" then
          { result := Except.error
              (400, "Срок действия кода истек, начните регистрацию заново")
          , db := db, store := st }
        else
          match create_user db email password_hash with
          | Except.error _ =>
            { result := Except.error
                (400, "Пользователь с таким email уже существует")
            , db := db, store := st }
          | Except.ok (user, db1) =>
            let st1 := Store.del
              (Store.del st ("reg_confirm:" ++ email)) ("pwd_hash:" ++ email)
            { result := Except.ok
                { user_id := user.id
                , email := user.email
                , access_token :=
                    create_access_token [("sub", JVal.str user.email)] now none
                , token_type := "bearer" }
            , db := db1, store := st1 }

/-- `send_login_code(user_login)` (`POST /auth/login/send_code`): a missing
user and a failing password check raise at two distinct sites, each with its
own literal status and detail; then a login code is stored under
`login_code:{email}` and delivered.  Password verification `vp`, the
generated code and the delivery outcome are parameters. -/
def send_login_code (vp : String → String → Bool) (db : Db) (st : Store)
    (email password : String) (code : String) (email_sent : Bool) :
    SendOutcome :=
  match get_user_by_email db email with
  | none =>
    { result := Except.error (400, "Некорректный email или пароль")
    , store := st }
  | some user =>
    if vp password user.hashed_password = false then
      { result := Except.error (400, "Некорректный email или пароль")
      , store := st }
    else
      let st1 := st.setex ("login_code:" ++ user.email)
        CODE_EXPIRATION_SECONDS code
      if email_sent = false then
        { result := Except.error
            (500, "Не удалось отправить код подтверждения")
        , store := st1 }
      else
        { result := Except.ok "Код подтверждения отправлен на ваш email"
        , store := st1 }

/-- `verify_login_code(data)` (`POST /auth/login/verify_code`): requires an
existing user, compares the stored `login_code:{email}` value with the
submitted code (`if not stored_code or stored_code != data.code`), deletes the
key and issues the token.  No flag on the user row and no password is
consulted. -/
def verify_login_code (db : Db) (st : Store) (email code : String)
    (now : Nat) : VerifyOutcome :=
  match get_user_by_email db email with
  | none =>
    { result := Except.error (400, "Пользователь не найден")
    , db := db, store := st }
  | some user =>
    match st.get ("login_code:" ++ user.email) with
    | none =>
      { result := Except.error (400, "Неверный код подтверждения")
      , db := db, store := st }
    | some stored_code =>
      if stored_code = "" ∨ stored_code ≠ code then
        { result := Except.error (400, "Неверный код подтверждения")
        , db := db, store := st }
      else
        let st1 := Store.del st ("login_code:" ++ user.email)
        { result := Except.ok
            { user_id := user.id
            , email := user.email
            , access_token :=
                create_access_token [("sub", JVal.str user.email)] now none
            , token_type := "bearer" }
        , db := db, store := st1 }

/-! ## Store lemmas -/

theorem Store.get_del_self (st : Store) (k : String) :
    (st.del k).get k = none := by
  simp [Store.get, Store.del]

theorem Store.get_del_ne (st : Store) (k k' : String) (h : k' ≠ k) :
    (st.del k).get k' = st.get k' := by
  simp [Store.get, Store.del, h]

theorem Store.get_setex_self (st : Store) (k : String) (t : Nat) (v : String) :
    (st.setex k t v).get k = some v := by
  simp [Store.get, Store.setex]

theorem Store.get_setex_ne (st : Store) (k : String) (t : Nat) (v : String)
    (k' : String) (h : k' ≠ k) : (st.setex k t v).get k' = st.get k' := by
  simp [Store.get, Store.setex, h]

theorem reg_key_ne_pwd_key (e : String) :
    ("reg_confirm:" ++ e) ≠ ("pwd_hash:" ++ e) := by
  intro h
  have h2 : ("reg_confirm:" ++ e).length = ("pwd_hash:" ++ e).length :=
    congrArg String.length h
  have l1 : ("reg_confirm:" : String).length = 12 := rfl
  have l2 : ("pwd_hash:" : String).length = 9 := rfl
  rw [String.length_append, String.length_append, l1, l2] at h2
  omega

/-- Inversion: a successful `verify` presupposes a non-empty stored code equal
to the submitted one, a non-empty stored password hash, and no existing row
with this email. -/
theorem verify_ok_inv (db : Db) (st : Store) (email code : String) (now : Nat)
    (p : SuccessPayload)
    (h : (verify db st email code now).result = Except.ok p) :
    st.get ("reg_confirm:" ++ email) = some code ∧ code ≠ "" ∧
    ∃ ph, st.get ("pwd_hash:" ++ email) = some ph ∧ ph ≠ "" ∧
      List.any db (fun u => u.email == email) = false := by
  unfold verify at h
  split at h
  next hreg => simp at h
  next s hreg =>
    split at h
    next hc => simp at h
    next hc =>
      push_neg at hc
      obtain ⟨hs0, hsc⟩ := hc
      subst hsc
      split at h
      next hpw => simp at h
      next ph hpw =>
        split at h
        next hp0 => simp at h
        next hp0 =>
          split at h
          next e hcu => simp at h
          next u db1 hcu =>
            unfold create_user at hcu
            by_cases hdup : List.any db (fun v => v.email == email) = true
            · rw [if_pos hdup] at hcu
              cases hcu
            · exact ⟨hreg, hs0, ⟨ph, hpw, hp0, by simpa using hdup⟩⟩

/-- Computation rule: under the success preconditions, `verify` returns the
201 payload, appends exactly one row, and deletes both ephemeral keys. -/
theorem verify_ok_eq (db : Db) (st : Store) (email code : String) (now : Nat)
    (ph : String)
    (hreg : st.get ("reg_confirm:" ++ email) = some code) (h0 : code ≠ "")
    (hpw : st.get ("pwd_hash:" ++ email) = some ph) (hp0 : ph ≠ "")
    (hdup : List.any db (fun u => u.email == email) = false) :
    verify db st email code now =
      { result := Except.ok
          { user_id := List.length db + 1
          , email := email
          , access_token := create_access_token [("sub", JVal.str email)] now none
          , token_type := "bearer" }
      , db := List.append db
          [{ id := List.length db + 1, email := email, is_active := true
           , is_verified := false, hashed_password := ph }]
      , store := Store.del (Store.del st ("reg_confirm:" ++ email))
          ("pwd_hash:" ++ email) } := by
  simp [verify, hreg, hpw, create_user, hdup, h0, hp0]

/-! ## Claim theorems -/

/-- C7 (confirmed): on the not-yet-initialized store client — `client = None`,
`_is_initialized = False` — `setex` and `get` raise `RuntimeError` from the
initialization guard, and the raw `client.delete` used by the routers raises
`AttributeError` on the `None` handle: every operation fails fast with an
error instead of hanging or silently succeeding. -/
theorem redis_ops_on_uninitialized_client_fail_fast :
    ∀ (k : String) (t : Nat) (v : String),
      RedisClient.initial.setex k t v =
        Except.error (PyErr.runtimeError "Redis is not initialized") ∧
      RedisClient.initial.get k =
        Except.error (PyErr.runtimeError "Redis is not initialized") ∧
      RedisClient.initial.rawDelete k =
        Except.error (PyErr.attributeError "NoneType has no attribute delete") := by
  intro k t v
  exact ⟨rfl, rfl, rfl⟩

/-- C6 counterexample: the token issued at verification carries only the `sub`
and `exp` claims; no `iat` (issuedAt) field is encoded, contrary to the claim
that all three of subject, issuedAt and expiresAt are present. -/
theorem create_access_token_lacks_iat_counterexample :
    dictGet (create_access_token [("sub", JVal.str "a@x.com")] 0 none).payload
      "sub" = some (JVal.str "a@x.com") ∧
    dictGet (create_access_token [("sub", JVal.str "a@x.com")] 0 none).payload
      "exp" = some (JVal.num 1800) ∧
    dictGet (create_access_token [("sub", JVal.str "a@x.com")] 0 none).payload
      "iat" = none := by
  exact ⟨rfl, rfl, rfl⟩

/-- C6 (corrected): the token is signed with the server-held secret under the
named algorithm and encodes the subject and the expiry, with `exp` equal to
issuance time plus the configured lifetime; it does not encode an issuedAt
field. -/
theorem create_access_token_signed_subject_expiry (sub : String) (now : Nat) :
    (create_access_token [("sub", JVal.str sub)] now none).key = SECRET_KEY ∧
    (create_access_token [("sub", JVal.str sub)] now none).algorithm =
      ALGORITHM ∧
    dictGet (create_access_token [("sub", JVal.str sub)] now none).payload
      "sub" = some (JVal.str sub) ∧
    dictGet (create_access_token [("sub", JVal.str sub)] now none).payload
      "exp" = some (JVal.num (now + ACCESS_TOKEN_EXPIRE_MINUTES * 60)) ∧
    dictGet (create_access_token [("sub", JVal.str sub)] now none).payload
      "iat" = none := by
  exact ⟨rfl, rfl, rfl, rfl, rfl⟩

/-- C3 counterexample: with `reg_confirm:a@x.com` holding the empty string and
the empty string submitted, the stored code is present and byte-for-byte equal
to the submitted code, yet `verify` fails with the invalid-code error — Python
truthiness (`if not stored_code`) treats the stored empty string as missing,
so the claim's "exactly when absent or unequal" is violated. -/
theorem verify_empty_stored_code_counterexample :
    (Store.setex (fun _ => none) "reg_confirm:a@x.com" 300 "").get
      "reg_confirm:a@x.com" = some "" ∧
    (verify [] (Store.setex (fun _ => none) "reg_confirm:a@x.com" 300 "")
      "a@x.com" "" 0).result = Except.error (400, "Неверный код подтверждения") := by
  exact ⟨rfl, rfl⟩

/-- C3 (corrected): `verify` fails with the invalid-code error exactly when
the stored `reg_confirm:{email}` value is absent, is the empty string, or is
not byte-for-byte equal to the submitted code — independently of the stored
password hash and of the original password. -/
theorem verify_invalid_code_iff (db : Db) (st : Store) (email code : String)
    (now : Nat) :
    (verify db st email code now).result =
        Except.error (400, "Неверный код подтверждения") ↔
      (st.get ("reg_confirm:" ++ email) = none ∨
       st.get ("reg_confirm:" ++ email) = some "" ∨
       st.get ("reg_confirm:" ++ email) ≠ some code) := by
  unfold verify
  split
  next hreg => simp [hreg]
  next s hreg =>
    split
    next hc =>
      rcases hc with hc | hc <;> simp [hreg, hc]
    next hc =>
      push_neg at hc
      obtain ⟨hs0, hsc⟩ := hc
      subst hsc
      split
      next hpw => simp [hreg, hs0]
      next ph hpw =>
        split
        next => simp [hreg, hs0]
        next =>
          split
          next => simp [hreg, hs0]
          next => simp [hreg, hs0]

/-- C3 witness: on an empty store the invalid-code error is returned, by the
absence disjunct. -/
theorem verify_invalid_code_iff_witness :
    (verify [] (fun _ => none) "a@x.com" "1" 0).result =
      Except.error (400, "Неверный код подтверждения") :=
  (verify_invalid_code_iff [] (fun _ => none) "a@x.com" "1" 0).mpr
    (Or.inl rfl)

/-- C1 counterexample: a successful registration completion on an empty table
creates the row with the retrieved hash but with `is_verified = false` — the
router never sets the flag, so it keeps the column default, contradicting the
claimed `is_verified = true`. -/
theorem verify_creates_unverified_row_counterexample :
    (verify []
      (Store.setex (Store.setex (fun _ => none) "reg_confirm:a@x.com" 300 "4821")
        "pwd_hash:a@x.com" 300 "H") "a@x.com" "4821" 0).db =
      [{ id := 1, email := "a@x.com", is_active := true, is_verified := false
       , hashed_password := "H" }] ∧
    ∃ p, (verify []
      (Store.setex (Store.setex (fun _ => none) "reg_confirm:a@x.com" 300 "4821")
        "pwd_hash:a@x.com" 300 "H") "a@x.com" "4821" 0).result =
      Except.ok p := by
  exact ⟨rfl, ⟨_, rfl⟩⟩

/-- C1 (corrected): a successful `verify` appends exactly one `User` row for
an email that had none, its `hashed_password` being the retrieved ephemeral
hash; the row has `is_active = true` but `is_verified = false` (the column
default — the flag is never set to true). -/
theorem verify_success_creates_single_row (db : Db) (st : Store)
    (email code : String) (now : Nat) (p : SuccessPayload)
    (h : (verify db st email code now).result = Except.ok p) :
    ∃ u : User,
      (verify db st email code now).db = List.append db [u] ∧
      st.get ("pwd_hash:" ++ email) = some u.hashed_password ∧
      u.email = email ∧ u.is_active = true ∧ u.is_verified = false ∧
      p.user_id = u.id ∧
      ∀ v ∈ db, v.email ≠ email := by
  obtain ⟨hreg, h0, ph, hpw, hp0, hdup⟩ := verify_ok_inv db st email code now p h
  have heq := verify_ok_eq db st email code now ph hreg h0 hpw hp0 hdup
  refine ⟨{ id := List.length db + 1, email := email, is_active := true
          , is_verified := false, hashed_password := ph },
    ?_, hpw, rfl, rfl, rfl, ?_, ?_⟩
  · rw [heq]
  · rw [heq] at h
    injection h with h2
    rw [← h2]
  · intro v hv hvEq
    have hda : List.any db (fun u => u.email == email) = true :=
      List.any_eq_true.mpr ⟨v, hv, by simp [hvEq]⟩
    rw [hdup] at hda
    cases hda

/-- C1 witness: concrete successful completion on an empty table. -/
theorem verify_success_creates_single_row_witness :
    ∃ u : User,
      (verify []
        (Store.setex (Store.setex (fun _ => none) "reg_confirm:a@x.com" 300 "4821")
          "pwd_hash:a@x.com" 300 "H") "a@x.com" "4821" 0).db =
        List.append [] [u] ∧
      (Store.setex (Store.setex (fun _ => none) "reg_confirm:a@x.com" 300 "4821")
          "pwd_hash:a@x.com" 300 "H").get ("pwd_hash:" ++ "a@x.com") =
        some u.hashed_password ∧
      u.email = "a@x.com" ∧ u.is_active = true ∧ u.is_verified = false ∧
      ({ user_id := 1, email := "a@x.com"
       , access_token := create_access_token [("sub", JVal.str "a@x.com")] 0 none
       , token_type := "bearer" } : SuccessPayload).user_id = u.id ∧
      ∀ v ∈ ([] : Db), v.email ≠ "a@x.com" :=
  verify_success_creates_single_row []
    (Store.setex (Store.setex (fun _ => none) "reg_confirm:a@x.com" 300 "4821")
      "pwd_hash:a@x.com" 300 "H") "a@x.com" "4821" 0
    { user_id := 1, email := "a@x.com"
    , access_token := create_access_token [("sub", JVal.str "a@x.com")] 0 none
    , token_type := "bearer" } rfl

/-- C2 (confirmed): after a successful `verify`, both `reg_confirm:{email}`
and `pwd_hash:{email}` read as absent from the resulting store, and repeating
the same call against the resulting states fails with the invalid-code
error. -/
theorem verify_consumes_both_keys (db : Db) (st : Store) (email code : String)
    (now : Nat) (p : SuccessPayload)
    (h : (verify db st email code now).result = Except.ok p) :
    (verify db st email code now).store.get ("reg_confirm:" ++ email) = none ∧
    (verify db st email code now).store.get ("pwd_hash:" ++ email) = none ∧
    (verify (verify db st email code now).db
        (verify db st email code now).store email code now).result =
      Except.error (400, "Неверный код подтверждения") := by
  obtain ⟨hreg, h0, ph, hpw, hp0, hdup⟩ := verify_ok_inv db st email code now p h
  have heq := verify_ok_eq db st email code now ph hreg h0 hpw hp0 hdup
  have hr : Store.get
      (Store.del (Store.del st ("reg_confirm:" ++ email)) ("pwd_hash:" ++ email))
      ("reg_confirm:" ++ email) = none := by
    rw [Store.get_del_ne _ _ _ (reg_key_ne_pwd_key email)]
    exact Store.get_del_self st _
  have hp : Store.get
      (Store.del (Store.del st ("reg_confirm:" ++ email)) ("pwd_hash:" ++ email))
      ("pwd_hash:" ++ email) = none := Store.get_del_self _ _
  rw [heq]
  exact ⟨hr, hp, by simp [verify, hr]⟩

/-- C2 witness: concrete successful completion, then both keys are consumed
and the same call replayed fails. -/
theorem verify_consumes_both_keys_witness :
    (verify []
      (Store.setex (Store.setex (fun _ => none) "reg_confirm:a@x.com" 300 "4821")
        "pwd_hash:a@x.com" 300 "H") "a@x.com" "4821" 0).store.get
      ("reg_confirm:" ++ "a@x.com") = none ∧
    (verify []
      (Store.setex (Store.setex (fun _ => none) "reg_confirm:a@x.com" 300 "4821")
        "pwd_hash:a@x.com" 300 "H") "a@x.com" "4821" 0).store.get
      ("pwd_hash:" ++ "a@x.com") = none ∧
    (verify
      (verify []
        (Store.setex (Store.setex (fun _ => none) "reg_confirm:a@x.com" 300 "4821")
          "pwd_hash:a@x.com" 300 "H") "a@x.com" "4821" 0).db
      (verify []
        (Store.setex (Store.setex (fun _ => none) "reg_confirm:a@x.com" 300 "4821")
          "pwd_hash:a@x.com" 300 "H") "a@x.com" "4821" 0).store
      "a@x.com" "4821" 0).result =
      Except.error (400, "Неверный код подтверждения") :=
  verify_consumes_both_keys []
    (Store.setex (Store.setex (fun _ => none) "reg_confirm:a@x.com" 300 "4821")
      "pwd_hash:a@x.com" 300 "H") "a@x.com" "4821" 0
    { user_id := 1, email := "a@x.com"
    , access_token := create_access_token [("sub", JVal.str "a@x.com")] 0 none
    , token_type := "bearer" } rfl

/-- C8 counterexample: with `reg_confirm:b@x.com` holding the empty string,
the empty string submitted (so stored and submitted codes are equal) and no
`pwd_hash:b@x.com` entry, `verify` fails with the invalid-code error, not with
the password-context-expired error the claim requires — Python truthiness
consumes the empty stored code first. -/
theorem verify_pwd_absent_empty_code_counterexample :
    (Store.setex (fun _ => none) "reg_confirm:b@x.com" 300 "").get
      "reg_confirm:b@x.com" = some "" ∧
    (Store.setex (fun _ => none) "reg_confirm:b@x.com" 300 "").get
      "pwd_hash:b@x.com" = none ∧
    (verify [] (Store.setex (fun _ => none) "reg_confirm:b@x.com" 300 "")
      "b@x.com" "" 0).result =
      Except.error (400, "Неверный код подтверждения") := by
  exact ⟨rfl, rfl, rfl⟩

/-- C8 (corrected): when the submitted code is non-empty and equals the stored
`reg_confirm:{email}` value but `pwd_hash:{email}` is absent, `verify` fails
with the password-context-expired error and creates no row. -/
theorem verify_pwd_context_expired (db : Db) (st : Store) (email code : String)
    (now : Nat)
    (hreg : st.get ("reg_confirm:" ++ email) = some code) (h0 : code ≠ "")
    (hpw : st.get ("pwd_hash:" ++ email) = none) :
    (verify db st email code now).result =
      Except.error (400, "Срок действия кода истек, начните регистрацию заново") ∧
    (verify db st email code now).db = db := by
  simp [verify, hreg, hpw, h0]

/-- C8 witness: concrete store holding only the confirmation code. -/
theorem verify_pwd_context_expired_witness :
    (verify [] (Store.setex (fun _ => none) "reg_confirm:a@x.com" 300 "4821")
      "a@x.com" "4821" 0).result =
      Except.error (400, "Срок действия кода истек, начните регистрацию заново") ∧
    (verify [] (Store.setex (fun _ => none) "reg_confirm:a@x.com" 300 "4821")
      "a@x.com" "4821" 0).db = [] :=
  verify_pwd_context_expired []
    (Store.setex (fun _ => none) "reg_confirm:a@x.com" 300 "4821")
    "a@x.com" "4821" 0 rfl (by decide) rfl

/-- C9 (confirmed): every failing `verify` — absent or mismatched code, absent
password hash, or uniqueness violation while creating the row — leaves the
ephemeral store exactly as it was; only the success path deletes the two keys
(and deletes exactly those two). -/
theorem verify_error_preserves_store (db : Db) (st : Store)
    (email code : String) (now : Nat) :
    (∀ e, (verify db st email code now).result = Except.error e →
        (verify db st email code now).store = st) ∧
    (∀ p, (verify db st email code now).result = Except.ok p →
        (verify db st email code now).store =
          Store.del (Store.del st ("reg_confirm:" ++ email))
            ("pwd_hash:" ++ email)) := by
  unfold verify
  repeat' split
  all_goals
    first
    | exact ⟨fun _ _ => rfl, fun p h => by simp at h⟩
    | exact ⟨fun e h => by simp at h, fun _ _ => rfl⟩

/-- C9 witness: a failing call (empty store) leaves the store untouched; a
succeeding call deletes the two keys. -/
theorem verify_error_preserves_store_witness :
    (verify [] (fun _ => none) "a@x.com" "1" 0).store = (fun _ => none) ∧
    (verify []
      (Store.setex (Store.setex (fun _ => none) "reg_confirm:a@x.com" 300 "4821")
        "pwd_hash:a@x.com" 300 "H") "a@x.com" "4821" 0).store =
      Store.del (Store.del
        (Store.setex (Store.setex (fun _ => none) "reg_confirm:a@x.com" 300 "4821")
          "pwd_hash:a@x.com" 300 "H") ("reg_confirm:" ++ "a@x.com"))
        ("pwd_hash:" ++ "a@x.com") :=
  ⟨(verify_error_preserves_store [] (fun _ => none) "a@x.com" "1" 0).1
      (400, "Неверный код подтверждения") rfl,
   (verify_error_preserves_store []
      (Store.setex (Store.setex (fun _ => none) "reg_confirm:a@x.com" 300 "4821")
        "pwd_hash:a@x.com" 300 "H") "a@x.com" "4821" 0).2
      { user_id := 1, email := "a@x.com"
      , access_token := create_access_token [("sub", JVal.str "a@x.com")] 0 none
      , token_type := "bearer" } rfl⟩

/-- C5 counterexample: registration is rejected for an email whose only user
row is unverified (`is_verified = false`), although the claim requires it to
proceed to code generation in that case — the router checks bare row
existence, never the flag. -/
theorem register_rejects_unverified_counterexample :
    (register [{ id := 1, email := "c@x.com", is_active := true
               , is_verified := false, hashed_password := "H" }]
      (fun _ => none) "c@x.com" "pw" "4821" (fun s => s) true).result =
      Except.error (400, "Email уже зарегистрирован") ∧
    ({ id := 1, email := "c@x.com", is_active := true, is_verified := false
     , hashed_password := "H" } : User).is_verified = false := by
  exact ⟨rfl, rfl⟩

/-- C5 (corrected): `register` fails with the already-registered error exactly
when any user row — verified or not — exists for the email; when none exists
it stores the confirmation code and the password hash under the two ephemeral
keys. -/
theorem register_rejects_any_existing_user (db : Db) (st : Store)
    (email password code : String) (hashpw : String → String) (sent : Bool) :
    ((register db st email password code hashpw sent).result =
        Except.error (400, "Email уже зарегистрирован") ↔
      get_user_by_email db email ≠ none) ∧
    (get_user_by_email db email = none →
      (register db st email password code hashpw sent).store.get
        ("reg_confirm:" ++ email) = some code ∧
      (register db st email password code hashpw sent).store.get
        ("pwd_hash:" ++ email) = some (hashpw password)) := by
  unfold register
  cases hu : get_user_by_email db email with
  | some u => exact ⟨by simp, fun h => by cases h⟩
  | none =>
    have hne := reg_key_ne_pwd_key email
    refine ⟨?_, fun _ => ⟨?_, ?_⟩⟩
    · cases sent <;> simp
    · cases sent <;>
        simp [Store.get_setex_ne, Store.get_setex_self, hne]
    · cases sent <;>
        simp [Store.get_setex_ne, Store.get_setex_self, hne]

/-- C5 witness: on an empty table registration proceeds and stores both
ephemeral entries. -/
theorem register_rejects_any_existing_user_witness :
    (register [] (fun _ => none) "a@x.com" "pw" "4821"
      (fun s => String.append "h" s) true).store.get
      ("reg_confirm:" ++ "a@x.com") = some "4821" ∧
    (register [] (fun _ => none) "a@x.com" "pw" "4821"
      (fun s => String.append "h" s) true).store.get
      ("pwd_hash:" ++ "a@x.com") = some (String.append "h" "pw") :=
  (register_rejects_any_existing_user [] (fun _ => none) "a@x.com" "pw" "4821"
    (fun s => String.append "h" s) true).2 rfl

/-- C4 (confirmed): a login-code request for an email with no user row and one
for an existing user whose password fails verification return the identical
error shape — the same 400 status and the same detail string — so the two
failure causes are indistinguishable to the caller. -/
theorem send_login_code_uniform_error (vp : String → String → Bool)
    (db1 : Db) (st1 : Store) (email1 pw1 code1 : String) (sent1 : Bool)
    (db2 : Db) (st2 : Store) (email2 pw2 code2 : String) (sent2 : Bool)
    (u : User)
    (h1 : get_user_by_email db1 email1 = none)
    (h2 : get_user_by_email db2 email2 = some u)
    (h3 : vp pw2 u.hashed_password = false) :
    (send_login_code vp db1 st1 email1 pw1 code1 sent1).result =
      Except.error (400, "Некорректный email или пароль") ∧
    (send_login_code vp db2 st2 email2 pw2 code2 sent2).result =
      Except.error (400, "Некорректный email или пароль") := by
  constructor
  · simp [send_login_code, h1]
  · simp [send_login_code, h2, h3]

/-- C4 witness: concrete unknown-email call and concrete wrong-password call
produce the same error. -/
theorem send_login_code_uniform_error_witness :
    (send_login_code (fun _ _ => false) [] (fun _ => none)
      "n@x.com" "pw" "1111" true).result =
      Except.error (400, "Некорректный email или пароль") ∧
    (send_login_code (fun _ _ => false)
      [{ id := 1, email := "e@x.com", is_active := true, is_verified := true
       , hashed_password := "H" }] (fun _ => none)
      "e@x.com" "pw" "1111" true).result =
      Except.error (400, "Некорректный email или пароль") :=
  send_login_code_uniform_error (fun _ _ => false)
    [] (fun _ => none) "n@x.com" "pw" "1111" true
    [{ id := 1, email := "e@x.com", is_active := true, is_verified := true
     , hashed_password := "H" }] (fun _ => none) "e@x.com" "pw" "1111" true
    { id := 1, email := "e@x.com", is_active := true, is_verified := true
    , hashed_password := "H" } rfl rfl rfl

/-- C10 counterexample: for an existing user whose stored `login_code` value
is the empty string and an empty submitted code — string-equal — the login
completion fails instead of succeeding: Python truthiness rejects the empty
stored code. -/
theorem verify_login_empty_code_counterexample :
    get_user_by_email [{ id := 1, email := "d@x.com", is_active := true
                       , is_verified := true, hashed_password := "H" }]
      "d@x.com" = some { id := 1, email := "d@x.com", is_active := true
                       , is_verified := true, hashed_password := "H" } ∧
    (Store.setex (fun _ => none) "login_code:d@x.com" 300 "").get
      "login_code:d@x.com" = some "" ∧
    (verify_login_code [{ id := 1, email := "d@x.com", is_active := true
                        , is_verified := true, hashed_password := "H" }]
      (Store.setex (fun _ => none) "login_code:d@x.com" 300 "")
      "d@x.com" "" 0).result =
      Except.error (400, "Неверный код подтверждения") := by
  exact ⟨rfl, rfl, rfl⟩

/-- C10 (corrected): for every existing user — regardless of `is_active`,
`is_verified` or the stored password — whose stored `login_code:{email}` value
is non-empty and equals the submitted code, login completion succeeds: it
deletes the login-code key and issues a token bound to the user's email. -/
theorem verify_login_code_success (db : Db) (st : Store) (email code : String)
    (now : Nat) (u : User)
    (hu : get_user_by_email db email = some u)
    (hc : st.get ("login_code:" ++ u.email) = some code) (h0 : code ≠ "") :
    (verify_login_code db st email code now).result = Except.ok
      { user_id := u.id, email := u.email
      , access_token := create_access_token [("sub", JVal.str u.email)] now none
      , token_type := "bearer" } ∧
    (verify_login_code db st email code now).store.get
      ("login_code:" ++ u.email) = none := by
  constructor <;> simp [verify_login_code, hu, hc, h0, Store.get_del_self]

/-- C10 witness: an inactive, unverified user with a matching stored login
code completes login. -/
theorem verify_login_code_success_witness :
    (verify_login_code [{ id := 7, email := "f@x.com", is_active := false
                        , is_verified := false, hashed_password := "H" }]
      (Store.setex (fun _ => none) ("login_code:" ++ "f@x.com") 300 "9999")
      "f@x.com" "9999" 5).result = Except.ok
      { user_id := 7, email := "f@x.com"
      , access_token := create_access_token [("sub", JVal.str "f@x.com")] 5 none
      , token_type := "bearer" } ∧
    (verify_login_code [{ id := 7, email := "f@x.com", is_active := false
                        , is_verified := false, hashed_password := "H" }]
      (Store.setex (fun _ => none) ("login_code:" ++ "f@x.com") 300 "9999")
      "f@x.com" "9999" 5).store.get ("login_code:" ++ "f@x.com") = none :=
  verify_login_code_success
    [{ id := 7, email := "f@x.com", is_active := false
     , is_verified := false, hashed_password := "H" }]
    (Store.setex (fun _ => none) ("login_code:" ++ "f@x.com") 300 "9999")
    "f@x.com" "9999" 5
    { id := 7, email := "f@x.com", is_active := false
    , is_verified := false, hashed_password := "H" } rfl rfl (by decide)

end Meteorology
